import Mathlib

/-!
Verification of the `rotv` coordinate-validation scripts
(`scripts/validate_coordinates.py`, `scripts/validate_water_features.py`,
`scripts/coordinate_report.py`).

Strings from the Python side are modelled as `List Char`; Python floats are
modelled as exact real numbers (ℝ), with the decimal literals of the source
kept verbatim.  Fallible Python code (dict key access, `float()` conversion)
is modelled with `Except`.
-/

namespace Rotv

/-! ### Python string primitives used by the scripts -/

/-- Python `str.lower()` on a character sequence. -/
def lowerStr (s : List Char) : List Char := s.map Char.toLower

/-- `leadsWith n h = true` when the sequence `n` occurs at the start of `h`
(Python `h.startswith(n)`). -/
def leadsWith : List Char → List Char → Bool
  | [], _ => true
  | _ :: _, [] => false
  | c :: cs, d :: ds => c == d && leadsWith cs ds

/-- Python substring containment `n in h`. -/
def hasSub (n : List Char) : List Char → Bool
  | [] => leadsWith n []
  | d :: t => leadsWith n (d :: t) || hasSub n t

theorem leadsWith_iff (n h : List Char) :
    leadsWith n h = true ↔ ∃ post, h = n ++ post := by
  induction n generalizing h with
  | nil => simp [leadsWith]
  | cons c cs ih =>
    cases h with
    | nil => simp [leadsWith]
    | cons d ds =>
      simp only [leadsWith, Bool.and_eq_true, beq_iff_eq, ih, List.cons_append,
        List.cons.injEq]
      constructor
      · rintro ⟨rfl, post, rfl⟩
        exact ⟨post, rfl, rfl⟩
      · rintro ⟨post, rfl, rfl⟩
        exact ⟨rfl, post, rfl⟩

theorem hasSub_iff (n h : List Char) :
    hasSub n h = true ↔ ∃ pre post, h = pre ++ n ++ post := by
  induction h with
  | nil =>
    simp only [hasSub, leadsWith_iff]
    constructor
    · rintro ⟨post, hp⟩
      exact ⟨[], post, by simpa using hp⟩
    · rintro ⟨pre, post, hp⟩
      rcases List.append_eq_nil.mp (List.append_eq_nil.mp hp.symm).1 with ⟨rfl, rfl⟩
      exact ⟨post, by simpa using hp⟩
  | cons d t ih =>
    simp only [hasSub, Bool.or_eq_true, leadsWith_iff, ih]
    constructor
    · rintro (⟨post, hp⟩ | ⟨pre, post, hp⟩)
      · exact ⟨[], post, by simpa using hp⟩
      · exact ⟨d :: pre, post, by simp [hp]⟩
    · rintro ⟨pre, post, hp⟩
      cases pre with
      | nil => exact Or.inl ⟨post, by simpa using hp⟩
      | cons e pre' =>
        simp only [List.cons_append, List.cons.injEq] at hp
        exact Or.inr ⟨pre', post, hp.2⟩

/-! ### Feature classifiers

`validate_coordinates.py` uses a twelve-keyword list; `validate_water_features.py`
additionally lists `gorge`. -/

namespace ValidateCoordinates

/-- Keyword list of `validate_coordinates.py` (twelve entries, no `gorge`). -/
def WATER_KEYWORDS : List (List Char) :=
  ["dam", "river", "lake", "pond", "marsh", "falls", "waterfall",
   "creek", "canal", "lock", "aqueduct", "reservoir"].map String.toList

/-- `is_water_feature` of `validate_coordinates.py`. -/
def is_water_feature (name : List Char) : Bool :=
  WATER_KEYWORDS.any (fun keyword => hasSub keyword (lowerStr name))

end ValidateCoordinates

namespace ValidateWaterFeatures

/-- Keyword list of `validate_water_features.py` (thirteen entries, with `gorge`). -/
def WATER_KEYWORDS : List (List Char) :=
  ["dam", "river", "lake", "pond", "marsh", "falls", "waterfall",
   "creek", "canal", "lock", "aqueduct", "reservoir", "gorge"].map String.toList

/-- `is_water_feature` of `validate_water_features.py`. -/
def is_water_feature (name : List Char) : Bool :=
  WATER_KEYWORDS.any (fun keyword => hasSub keyword (lowerStr name))

end ValidateWaterFeatures

/-! ### Python `float()` on the scripts' data

Models Python `float()` restricted to plain decimal literals (optional sign,
digits, optional fractional part) — the only shape the coordinate strings
take.  Returns `none` where Python would raise `ValueError`. -/

/-- Accumulate decimal digits into a natural number. -/
def natOfDigits (s : List Char) : ℕ :=
  s.foldl (fun n c => 10 * n + (c.toNat - 48)) 0

/-- Parse an unsigned decimal literal (`"41"`, `"41.2"`, `".5"`, `"41."`).
The value of `ip.fp` is the exact rational `(ip·10^|fp| + fp) / 10^|fp|`. -/
def parseUnsigned (s : List Char) : Option ℚ :=
  let ip := s.takeWhile Char.isDigit
  let rest := s.dropWhile Char.isDigit
  match rest with
  | [] => if ip.isEmpty then none else some (mkRat (natOfDigits ip) 1)
  | '.' :: fp =>
    if fp.all Char.isDigit && !(ip.isEmpty && fp.isEmpty) then
      some (mkRat (natOfDigits ip * 10 ^ fp.length + natOfDigits fp) (10 ^ fp.length))
    else none
  | _ => none

/-- Python `float()` with an optional leading sign. -/
def parseFloat : List Char → Option ℚ
  | '-' :: rest => (parseUnsigned rest).map (fun q => -q)
  | '+' :: rest => parseUnsigned rest
  | s => parseUnsigned s

/-! ### The haversine distance (common to all three scripts)

`haversine_distance` appears verbatim in `validate_coordinates.py`,
`validate_water_features.py` and `coordinate_report.py`; it is embedded once.
Python's `math.radians`, `math.atan2`, `math.sqrt`, `math.sin`, `math.cos` are
modelled by the corresponding exact real functions. -/

/-- Python `math.radians`: degrees to radians. -/
noncomputable def radians (x : ℝ) : ℝ := x * (Real.pi / 180)

/-- Python `math.atan2 y x` (two-argument arctangent, full quadrant handling). -/
noncomputable def atan2 (y x : ℝ) : ℝ :=
  if 0 < x then Real.arctan (y / x)
  else if x < 0 then
    (if 0 ≤ y then Real.arctan (y / x) + Real.pi else Real.arctan (y / x) - Real.pi)
  else
    (if 0 < y then Real.pi / 2 else if y < 0 then -(Real.pi / 2) else 0)

/-- The intermediate `a` of `haversine_distance`:
`a = sin(Δφ/2)² + cos(φ1)·cos(φ2)·sin(Δλ/2)²`. -/
noncomputable def haversine_a (lat1 lon1 lat2 lon2 : ℝ) : ℝ :=
  Real.sin (radians (lat2 - lat1) / 2) ^ 2 +
    Real.cos (radians lat1) * Real.cos (radians lat2) *
      Real.sin (radians (lon2 - lon1) / 2) ^ 2

/-- `haversine_distance(lat1, lon1, lat2, lon2)`:
`R * c` with `R = 6371000` and `c = 2 * atan2(sqrt(a), sqrt(1-a))`.

Modelling caveat: `Real.sqrt` is total over exact reals, whereas Python's
`math.sqrt` raises `ValueError` on a negative argument and IEEE rounding can
push the unclamped intermediate `a` above `1` for near-antipodal inputs
(e.g. `(2.5, 0)` against `(-2.5, 180)`), making `math.sqrt(1-a)` raise.  This
embedding therefore carries the exact value of the formula, not the float
error branch; the boundary behaviour is captured separately by the theorem on
the intermediate value below. -/
noncomputable def haversine_distance (lat1 lon1 lat2 lon2 : ℝ) : ℝ :=
  6371000 * (2 * atan2 (Real.sqrt (haversine_a lat1 lon1 lat2 lon2))
    (Real.sqrt (1 - haversine_a lat1 lon1 lat2 lon2)))

/-! ### `validate_coordinates.py`: bounds check, USGS site list, orchestrator -/

namespace ValidateCoordinates

/-- The `CVNP_BOUNDS` dictionary. -/
structure Bounds where
  min_lat : ℝ
  max_lat : ℝ
  min_lng : ℝ
  max_lng : ℝ

/-- Cuyahoga Valley National Park approximate bounding box. -/
noncomputable def CVNP_BOUNDS : Bounds :=
  { min_lat := 41.10, max_lat := 41.38, min_lng := -81.70, max_lng := -81.50 }

/-- `is_within_bounds(lat, lng)`: closed rectangular containment test. -/
def is_within_bounds (lat lng : ℝ) : Prop :=
  CVNP_BOUNDS.min_lat ≤ lat ∧ lat ≤ CVNP_BOUNDS.max_lat ∧
    CVNP_BOUNDS.min_lng ≤ lng ∧ lng ≤ CVNP_BOUNDS.max_lng

/-- A site record built by `get_nearby_usgs_sites`
(`{'name', 'lat', 'lng', 'distance_m'}`). -/
structure USGSSite where
  name : List Char
  lat : ℝ
  lng : ℝ
  distance_m : ℝ

/-- One iteration of the RDB-parsing loop of `get_nearby_usgs_sites`: a line
contributes a site when it starts with `USGS`, splits into at least 5 tab
fields, field 5 exists (otherwise Python's `IndexError` is caught and the line
skipped) and fields 4 and 5 parse as floats (otherwise `ValueError`, likewise
skipped). -/
noncomputable def parseSiteLine (lat lng : ℝ) (line : List Char) : Option USGSSite :=
  if leadsWith "USGS".toList line then
    let parts := line.splitOn '\t'
    if 5 ≤ parts.length then
      match parts.get? 4, parts.get? 5 with
      | some p4, some p5 =>
        match parseFloat p4, parseFloat p5 with
        | some site_lat, some site_lng =>
          some { name := parts.getD 2 "Unknown".toList,
                 lat := (site_lat : ℝ), lng := (site_lng : ℝ),
                 distance_m := haversine_distance lat lng (site_lat : ℝ) (site_lng : ℝ) }
        | _, _ => none
      | _, _ => none
    else none
  else none

/-- `get_nearby_usgs_sites(lat, lng)` applied to the text of a USGS response
(the HTTP fetch is the external collaborator; `data` is the decoded body).
Collects the parsed sites and returns them sorted by `distance_m`
(Python `sorted` with key `distance_m`, a stable merge sort). -/
noncomputable def get_nearby_usgs_sites (lat lng : ℝ) (data : List Char) : List USGSSite :=
  ((data.splitOn '\n').filterMap (parseSiteLine lat lng)).mergeSort
    (fun a b => decide (a.distance_m ≤ b.distance_m))

/-- A destination record from the API (`{name, latitude, longitude}`); a `none`
field models an absent dictionary key, `some s` a present string value. -/
structure Destination where
  name : List Char
  latitude : Option (List Char)
  longitude : Option (List Char)

/-- Python exceptions that `validate_destination` can raise. -/
inductive PyErr where
  | keyError (key : List Char)
  | valueError
deriving DecidableEq

/-- The validation issues of `validate_destination`, one constructor per
`issues.append` site (free-text formatting abstracted into payloads). -/
inductive Issue where
  | noCoordinates
  | outsideBounds
  | waterFeatureFar (distance_m : ℝ)
  | geocodeOutsideCounties

/-- The suggestions of `validate_destination`, one constructor per
`suggestions.append` site. -/
inductive Suggestion where
  | considerSite (lat lng : ℝ) (name : List Char)
  | nearSite (name : List Char) (distance_m : ℝ)
  | geocodedTo (text : List Char)

/-- The per-destination result dictionary `{'status', 'issues', 'suggestions'}`. -/
structure VResult where
  status : String
  issues : List Issue
  suggestions : List Suggestion

/-- Python dict access `dest[key]`: `KeyError` when the key is absent. -/
def getField (v : Option (List Char)) (key : List Char) : Except PyErr (List Char) :=
  match v with
  | none => .error (.keyError key)
  | some s => .ok s

/-- `float(x) if x else None`: an empty string is falsy and yields `None`;
otherwise `float()` runs and may raise `ValueError`. -/
def toFloatOpt (s : List Char) : Except PyErr (Option ℚ) :=
  if s.isEmpty then .ok none
  else
    match parseFloat s with
    | some q => .ok (some q)
    | none => .error .valueError

/-- The geocode suggestion payload: `display_name[:80] + '...'` when the name
exceeds 80 characters, else the full name. -/
def truncateDisplay (s : List Char) : List Char :=
  if 80 < s.length then s.take 80 ++ "...".toList else s

open scoped Classical in
/-- `validate_destination(dest)`.  The two collaborator calls are supplied as
arguments: `usgs_data` is the USGS response body consumed by
`get_nearby_usgs_sites` (an unavailable collaborator is the empty body, parsed
to no sites), and `display_name` is the first component of `reverse_geocode`
(empty string on failure, which is falsy). -/
noncomputable def validate_destination (dest : Destination)
    (usgs_data : List Char) (display_name : List Char) : Except PyErr VResult := do
  let latS ← getField dest.latitude "latitude".toList
  let latO ← toFloatOpt latS
  let lngS ← getField dest.longitude "longitude".toList
  let lngO ← toFloatOpt lngS
  match latO, lngO with
  | some latQ, some lngQ =>
    let lat : ℝ := (latQ : ℝ)
    let lng : ℝ := (lngQ : ℝ)
    let boundsIssues : List Issue :=
      if is_within_bounds lat lng then [] else [.outsideBounds]
    let waterPair : List Issue × List Suggestion :=
      if is_water_feature dest.name then
        match get_nearby_usgs_sites lat lng usgs_data with
        | [] => ([], [])
        | nearest :: _ =>
          if 500 < nearest.distance_m then
            ([.waterFeatureFar nearest.distance_m],
             [.considerSite nearest.lat nearest.lng nearest.name])
          else
            ([], [.nearSite nearest.name nearest.distance_m])
      else ([], [])
    let geoPair : List Issue × List Suggestion :=
      if display_name.isEmpty then ([], [])
      else
        ((if hasSub "Summit".toList display_name = false ∧
              hasSub "Cuyahoga".toList display_name = false then
            [.geocodeOutsideCounties] else []),
         [.geocodedTo (truncateDisplay display_name)])
    let issues := boundsIssues ++ waterPair.1 ++ geoPair.1
    let suggestions := waterPair.2 ++ geoPair.2
    pure { status := if issues.isEmpty then "OK" else "WARNING",
           issues := issues, suggestions := suggestions }
  | _, _ =>
    pure { status := "MISSING", issues := [.noCoordinates], suggestions := [] }

end ValidateCoordinates

/-! ### `validate_water_features.py`: nearest-reference matcher -/

namespace ValidateWaterFeatures

/-- A USGS site dictionary `{'id', 'name', 'lat', 'lng'}` as built by
`get_usgs_sites_in_area`. -/
structure Site where
  id : List Char
  name : List Char
  lat : ℝ
  lng : ℝ

open scoped Classical in
/-- One iteration of the `find_nearest_usgs_site` loop: replace the running
`(nearest, min_distance)` pair exactly when the strict test
`distance < min_distance` holds.  `⊤ : WithTop ℝ` models the initial
`float('inf')`. -/
noncomputable def nearestStep (f : Site → ℝ) (acc : Option Site × WithTop ℝ)
    (site : Site) : Option Site × WithTop ℝ :=
  if (f site : WithTop ℝ) < acc.2 then (some site, (f site : WithTop ℝ)) else acc

/-- `find_nearest_usgs_site(lat, lng, usgs_sites)`: linear scan starting from
`nearest = None`, `min_distance = float('inf')`. -/
noncomputable def find_nearest_usgs_site (lat lng : ℝ) (usgs_sites : List Site) :
    Option Site × WithTop ℝ :=
  usgs_sites.foldl
    (nearestStep (fun site => haversine_distance lat lng site.lat site.lng))
    (none, ⊤)

end ValidateWaterFeatures

/-! ### `coordinate_report.py`: known-coordinate reconciler -/

namespace CoordinateReport

/-- The `KNOWN_COORDINATES` table (known good coordinates from USGS and NPS
sources), verbatim from the script. -/
noncomputable def KNOWN_COORDINATES : List (List Char × ℝ × ℝ) :=
  [("Peninsula Dam".toList, (41.2425, -81.55)),
   ("Lock 29 Peninsula".toList, (41.2425, -81.55)),
   ("Brandywine Falls".toList, (41.2767, -81.5382)),
   ("Blue Hen Falls".toList, (41.2659, -81.5657)),
   ("Bridal Veil Falls".toList, (41.3762, -81.5354)),
   ("Beaver Marsh".toList, (41.1814, -81.5832)),
   ("Deep Lock Quarry".toList, (41.2331, -81.5510)),
   ("Tinkers Creek Gorge".toList, (41.3762, -81.5354))]

/-- Python `name in dict` / `dict[name]` over the literal table: first (only)
binding with an exactly equal, case-sensitive key. -/
def lookupTable {α : Type} : List (List Char × α) → List Char → Option α
  | [], _ => none
  | (k, v) :: rest, n => if k = n then some v else lookupTable rest n

/-- The issue record appended by `main` for one out-of-tolerance destination. -/
structure CoordIssue where
  name : List Char
  current : ℝ × ℝ
  suggested : ℝ × ℝ
  distance : ℝ
  source : List Char

open scoped Classical in
/-- The known-coordinate check of `coordinate_report.main` for one destination
with stored coordinate `(lat, lng)`: look the name up in `KNOWN_COORDINATES`;
on a hit with haversine distance above 100 m, emit the issue carrying the
authoritative coordinate as suggestion; otherwise contribute nothing. -/
noncomputable def known_coordinate_check (name : List Char) (lat lng : ℝ) :
    Option CoordIssue :=
  match lookupTable KNOWN_COORDINATES name with
  | none => none
  | some (known_lat, known_lng) =>
    if 100 < haversine_distance lat lng known_lat known_lng then
      some { name := name, current := (lat, lng),
             suggested := (known_lat, known_lng),
             distance := haversine_distance lat lng known_lat known_lng,
             source := "Known/USGS".toList }
    else none

end CoordinateReport

/-! ### Helper lemmas about the haversine intermediate value -/

theorem radians_le_half_pi {x : ℝ} (h1 : -90 ≤ x) (h2 : x ≤ 90) :
    radians x ∈ Set.Icc (-(Real.pi / 2)) (Real.pi / 2) := by
  unfold radians
  constructor
  · nlinarith [Real.pi_pos]
  · nlinarith [Real.pi_pos]

theorem cos_radians_nonneg {x : ℝ} (h1 : -90 ≤ x) (h2 : x ≤ 90) :
    0 ≤ Real.cos (radians x) :=
  Real.cos_nonneg_of_mem_Icc (radians_le_half_pi h1 h2)

theorem haversine_a_nonneg (lat1 lon1 lat2 lon2 : ℝ)
    (h1 : -90 ≤ lat1) (h2 : lat1 ≤ 90) (h5 : -90 ≤ lat2) (h6 : lat2 ≤ 90) :
    0 ≤ haversine_a lat1 lon1 lat2 lon2 := by
  unfold haversine_a
  have hcp := cos_radians_nonneg h1 h2
  have hcq := cos_radians_nonneg h5 h6
  positivity

theorem haversine_a_le_one (lat1 lon1 lat2 lon2 : ℝ)
    (h1 : -90 ≤ lat1) (h2 : lat1 ≤ 90) (h5 : -90 ≤ lat2) (h6 : lat2 ≤ 90) :
    haversine_a lat1 lon1 lat2 lon2 ≤ 1 := by
  have hcp := cos_radians_nonneg h1 h2
  have hcq := cos_radians_nonneg h5 h6
  set p := radians lat1 with hp
  set q := radians lat2 with hq
  have hu : radians (lat2 - lat1) / 2 = (q - p) / 2 := by
    simp only [hp, hq, radians]; ring
  have hsinu : Real.sin ((q - p) / 2) ^ 2 = 1 / 2 - Real.cos (q - p) / 2 := by
    have h := Real.cos_sq ((q - p) / 2)
    have h' := Real.sin_sq ((q - p) / 2)
    rw [h'] at *
    have : 2 * ((q - p) / 2) = q - p := by ring
    rw [this] at h
    linarith
  have hv : Real.sin (radians (lon2 - lon1) / 2) ^ 2 ≤ 1 := Real.sin_sq_le_one _
  have hvn : 0 ≤ Real.sin (radians (lon2 - lon1) / 2) ^ 2 := sq_nonneg _
  have hsub : Real.cos (q - p) = Real.cos q * Real.cos p + Real.sin q * Real.sin p :=
    Real.cos_sub q p
  have hadd : Real.cos (q + p) = Real.cos q * Real.cos p - Real.sin q * Real.sin p :=
    Real.cos_add q p
  have hle : Real.cos (q + p) ≤ 1 := Real.cos_le_one _
  have hprod : Real.cos p * Real.cos q * Real.sin (radians (lon2 - lon1) / 2) ^ 2 ≤
      Real.cos p * Real.cos q :=
    mul_le_of_le_one_right (mul_nonneg hcp hcq) hv
  unfold haversine_a
  rw [hu, hsinu]
  linarith

/-- The intermediate `a` is symmetric in the two coordinate pairs. -/
theorem haversine_a_swap (lat1 lon1 lat2 lon2 : ℝ) :
    haversine_a lat1 lon1 lat2 lon2 = haversine_a lat2 lon2 lat1 lon1 := by
  unfold haversine_a radians
  have h1 : (lat1 - lat2) * (Real.pi / 180) / 2 = -((lat2 - lat1) * (Real.pi / 180) / 2) := by
    ring
  have h2 : (lon1 - lon2) * (Real.pi / 180) / 2 = -((lon2 - lon1) * (Real.pi / 180) / 2) := by
    ring
  rw [h1, h2, Real.sin_neg, Real.sin_neg]
  ring

/-! ### Claim C1: the unguarded square-root domain boundary -/

/-- **C1.** The claim asserts that the intermediate value fed to the
inverse-trigonometric step stays (or is clamped) within `[0, 1]` so that the
domain-error branch is unreachable.  The code contains no clamp, and the spec
itself notes this edge is unguarded.  At the in-range antipodal input
`(2.5, 0)` against `(-2.5, 180)` the exact value of the intermediate is
exactly `1` — the boundary of the `sqrt(1 - a)` domain — so any upward
floating-point rounding of the unclamped `a` (which CPython's IEEE evaluation
exhibits here, giving `a = 1.0000000000000002`) lands in the `ValueError`
branch of `math.sqrt`.  The exact-real embedding totalizes `sqrt` and so
cannot reach the error branch itself; this theorem pins the embedded
intermediate to the boundary at the failing input. -/
theorem claim_C1_intermediate_at_sqrt_domain_boundary :
    haversine_a 2.5 0 (-2.5) 180 = 1 := by
  unfold haversine_a
  have h1 : radians (-2.5 - 2.5) / 2 = -(radians 2.5) := by unfold radians; ring
  have h2 : radians (180 - 0) / 2 = Real.pi / 2 := by unfold radians; ring
  have h3 : radians (-2.5) = -(radians 2.5) := by unfold radians; ring
  rw [h1, h2, h3, Real.sin_neg, Real.cos_neg, Real.sin_pi_div_two]
  have h4 := Real.sin_sq_add_cos_sq (radians 2.5)
  ring_nf
  ring_nf at h4
  linarith

/-! ### Claim C8: symmetry of the distance metric -/

/-- **C8.** The distance metric is symmetric: for coordinate pairs within the
valid latitude/longitude ranges, `haversine_distance A B = haversine_distance B A`. -/
theorem claim_C8_haversine_symmetric (lat1 lon1 lat2 lon2 : ℝ)
    (h1 : -90 ≤ lat1) (h2 : lat1 ≤ 90) (h3 : -180 ≤ lon1) (h4 : lon1 ≤ 180)
    (h5 : -90 ≤ lat2) (h6 : lat2 ≤ 90) (h7 : -180 ≤ lon2) (h8 : lon2 ≤ 180) :
    haversine_distance lat1 lon1 lat2 lon2 = haversine_distance lat2 lon2 lat1 lon1 := by
  unfold haversine_distance
  rw [haversine_a_swap lat1 lon1 lat2 lon2]

theorem claim_C8_witness :
    haversine_distance 10 20 30 40 = haversine_distance 30 40 10 20 :=
  claim_C8_haversine_symmetric 10 20 30 40
    (by norm_num) (by norm_num) (by norm_num) (by norm_num)
    (by norm_num) (by norm_num) (by norm_num) (by norm_num)

/-! ### Claim C5: the matcher on an empty reference set -/

/-- **C5.** For every target coordinate, `find_nearest_usgs_site` applied to an
empty site collection returns the explicit no-match pair
`(None, float('inf'))` — an absent site — and, being a total function of its
inputs, raises nothing. -/
theorem claim_C5_empty_reference_set (lat lng : ℝ) :
    ValidateWaterFeatures.find_nearest_usgs_site lat lng [] = (none, ⊤) := rfl

/-! ### Claim C2: the feature classifier -/

/-- **C2 counterexample.** The claim asserts that the feature classifier
matches exactly the thirteen-term vocabulary including `gorge`, for both cited
implementations.  The lowercased name `"The Gorge"` contains `gorge` as a
substring, yet `is_water_feature` of `validate_coordinates.py` (whose keyword
list lacks `gorge`) returns false. -/
theorem claim_C2_counterexample :
    (∃ pre post, lowerStr "The Gorge".toList = pre ++ "gorge".toList ++ post) ∧
      ValidateCoordinates.is_water_feature "The Gorge".toList = false :=
  ⟨⟨"the ".toList, [], by decide⟩, by decide⟩

/-- **C2 (amended).** The classifier of `validate_water_features.py` returns
true iff the lowercased name contains one of the thirteen terms (with
`gorge`); the classifier of `validate_coordinates.py` returns true iff the
lowercased name contains one of the remaining twelve terms (without `gorge`).
Under both, `"Brandywine Falls"` and `"Beaver Marsh"` classify as water
features and `"Boston Store"` does not. -/
theorem claim_C2_water_keywords_amended :
    (∀ name : List Char,
        ValidateWaterFeatures.is_water_feature name = true ↔
          ∃ kw ∈ (["dam", "river", "lake", "pond", "marsh", "falls", "waterfall",
                   "creek", "canal", "lock", "aqueduct", "reservoir",
                   "gorge"].map String.toList),
            ∃ pre post, lowerStr name = pre ++ kw ++ post) ∧
    (∀ name : List Char,
        ValidateCoordinates.is_water_feature name = true ↔
          ∃ kw ∈ (["dam", "river", "lake", "pond", "marsh", "falls", "waterfall",
                   "creek", "canal", "lock", "aqueduct",
                   "reservoir"].map String.toList),
            ∃ pre post, lowerStr name = pre ++ kw ++ post) ∧
    ValidateWaterFeatures.is_water_feature "Brandywine Falls".toList = true ∧
    ValidateCoordinates.is_water_feature "Brandywine Falls".toList = true ∧
    ValidateWaterFeatures.is_water_feature "Beaver Marsh".toList = true ∧
    ValidateCoordinates.is_water_feature "Beaver Marsh".toList = true ∧
    ValidateWaterFeatures.is_water_feature "Boston Store".toList = false ∧
    ValidateCoordinates.is_water_feature "Boston Store".toList = false := by
  refine ⟨?_, ?_, by decide, by decide, by decide, by decide, by decide, by decide⟩
  · intro name
    simp only [ValidateWaterFeatures.is_water_feature,
      ValidateWaterFeatures.WATER_KEYWORDS, List.any_eq_true, hasSub_iff]
  · intro name
    simp only [ValidateCoordinates.is_water_feature,
      ValidateCoordinates.WATER_KEYWORDS, List.any_eq_true, hasSub_iff]

/-! ### Claim C3: missing coordinates -/

/-- **C3.** The claim says an empty-string *or absent* latitude/longitude
always yields status `MISSING` with one issue and never raises.  The
empty-string case behaves as claimed, but a record whose `latitude` key is
absent makes `dest['latitude']` raise `KeyError` instead: the code contradicts
the spec's explicit requirement (and the defensive `dest.get('latitude', '')`
used by `main` for display).  This theorem evaluates the embedding at both
inputs, exhibiting the divergence. -/
theorem claim_C3_absent_key_raises :
    ValidateCoordinates.validate_destination
        { name := "Ledges".toList, latitude := none, longitude := some "-81.6".toList }
        [] [] = .error (.keyError "latitude".toList) ∧
    ValidateCoordinates.validate_destination
        { name := "Ledges".toList, latitude := some [], longitude := some "-81.6".toList }
        [] [] =
      .ok { status := "MISSING", issues := [.noCoordinates], suggestions := [] } := by
  constructor
  · rfl
  · rfl

/-! ### Claim C9: the status alphabet and the reporter's counters -/

/-- Occurrence count of one status over a result sequence: the increment
`stats[result['status']] += 1` of `main`, summed over the run. -/
def countStatus (s : String) (results : List ValidateCoordinates.VResult) : ℕ :=
  results.countP (fun r => r.status == s)

/-- **C9.** Every result returned (rather than raised) by
`validate_destination` carries status `OK`, `WARNING` or `MISSING`, and for
any result sequence whose statuses are within this alphabet, the reporter's
three per-status counters sum to the number of destinations processed. -/
theorem claim_C9_status_alphabet_and_counts :
    (∀ (dest : ValidateCoordinates.Destination) (usgs_data display_name : List Char)
        (r : ValidateCoordinates.VResult),
        ValidateCoordinates.validate_destination dest usgs_data display_name = .ok r →
          r.status = "OK" ∨ r.status = "WARNING" ∨ r.status = "MISSING") ∧
    (∀ results : List ValidateCoordinates.VResult,
        (∀ r ∈ results, r.status = "OK" ∨ r.status = "WARNING" ∨ r.status = "MISSING") →
          countStatus "OK" results + countStatus "WARNING" results +
            countStatus "MISSING" results = results.length) := by
  have key : ∀ (l : List ValidateCoordinates.Issue)
      (sg : List ValidateCoordinates.Suggestion),
      ({ status := if l.isEmpty then "OK" else "WARNING", issues := l,
         suggestions := sg } : ValidateCoordinates.VResult).status = "OK" ∨
      ({ status := if l.isEmpty then "OK" else "WARNING", issues := l,
         suggestions := sg } : ValidateCoordinates.VResult).status = "WARNING" := by
    intro l sg
    by_cases h : l.isEmpty
    · left; simp [h]
    · right; simp [h]
  constructor
  · intro dest usgs_data display_name r h
    unfold ValidateCoordinates.validate_destination at h
    cases hlat : dest.latitude with
    | none => rw [hlat] at h; exact absurd h (by simp [ValidateCoordinates.getField, Bind.bind, Except.bind])
    | some ls =>
      rw [hlat] at h
      simp only [ValidateCoordinates.getField, Bind.bind, Except.bind] at h
      cases hlo : ValidateCoordinates.toFloatOpt ls with
      | error e => rw [hlo] at h; exact absurd h (by simp)
      | ok latO =>
        rw [hlo] at h
        cases hlng : dest.longitude with
        | none => rw [hlng] at h; exact absurd h (by simp [ValidateCoordinates.getField])
        | some lns =>
          rw [hlng] at h
          simp only [ValidateCoordinates.getField] at h
          cases hno : ValidateCoordinates.toFloatOpt lns with
          | error e => rw [hno] at h; exact absurd h (by simp)
          | ok lngO =>
            rw [hno] at h
            cases latO with
            | none =>
              simp only [Pure.pure, Except.pure, Except.ok.injEq] at h
              right; right; rw [← h]
            | some latQ =>
              cases lngO with
              | none =>
                simp only [Pure.pure, Except.pure, Except.ok.injEq] at h
                right; right; rw [← h]
              | some lngQ =>
                simp only [Pure.pure, Except.pure, Except.ok.injEq] at h
                rw [← h]
                rcases key _ _ with hk | hk
                · exact Or.inl hk
                · exact Or.inr (Or.inl hk)
  · intro results h
    induction results with
    | nil => rfl
    | cons r rs ih =>
      have hr := h r (List.mem_cons_self r rs)
      have hrs := ih (fun x hx => h x (List.mem_cons_of_mem r hx))
      simp only [countStatus, List.countP_cons, List.length_cons] at *
      rcases hr with hr | hr | hr <;> rw [hr] <;> simp <;> omega

theorem claim_C9_witness :
    (({ status := "MISSING", issues := [ValidateCoordinates.Issue.noCoordinates],
          suggestions := [] } : ValidateCoordinates.VResult).status = "OK" ∨
      ({ status := "MISSING", issues := [ValidateCoordinates.Issue.noCoordinates],
          suggestions := [] } : ValidateCoordinates.VResult).status = "WARNING" ∨
      ({ status := "MISSING", issues := [ValidateCoordinates.Issue.noCoordinates],
          suggestions := [] } : ValidateCoordinates.VResult).status = "MISSING") ∧
    countStatus "OK"
        [ValidateCoordinates.VResult.mk "MISSING"
          [ValidateCoordinates.Issue.noCoordinates] []] +
      countStatus "WARNING"
        [ValidateCoordinates.VResult.mk "MISSING"
          [ValidateCoordinates.Issue.noCoordinates] []] +
      countStatus "MISSING"
        [ValidateCoordinates.VResult.mk "MISSING"
          [ValidateCoordinates.Issue.noCoordinates] []] = 1 :=
  ⟨claim_C9_status_alphabet_and_counts.1
      { name := "Ledges".toList, latitude := some [], longitude := some [] } [] [] _ rfl,
   claim_C9_status_alphabet_and_counts.2 _ (by
      intro r hr
      rcases List.mem_singleton.mp hr with rfl
      exact Or.inr (Or.inr rfl))⟩

/-! ### Claim C4: the nearest-reference matcher on a non-empty set -/

namespace ValidateWaterFeatures

/-- Invariant of the `find_nearest_usgs_site` scan once a candidate is
installed: either no later site strictly improves on the running minimum and
the accumulator survives, or the scan ends on the site of some strictly
improving position, the first among the remaining minima. -/
theorem foldl_nearestStep_spec (f : Site → ℝ) (l : List Site) :
    ∀ m : Site,
      (l.foldl (nearestStep f) (some m, (f m : WithTop ℝ)) =
          (some m, (f m : WithTop ℝ)) ∧ ∀ x ∈ l, f m ≤ f x) ∨
      (∃ pre s post, l = pre ++ s :: post ∧
          l.foldl (nearestStep f) (some m, (f m : WithTop ℝ)) =
            (some s, (f s : WithTop ℝ)) ∧
          f s < f m ∧ (∀ x ∈ pre, f s < f x) ∧ (∀ x ∈ l, f s ≤ f x)) := by
  induction l with
  | nil => intro m; exact Or.inl ⟨rfl, by simp⟩
  | cons y t ih =>
    intro m
    by_cases hy : f y < f m
    · have hstep : nearestStep f (some m, (f m : WithTop ℝ)) y =
          (some y, (f y : WithTop ℝ)) := by
        simp [nearestStep, WithTop.coe_lt_coe, hy]
      rcases ih y with ⟨heq, hall⟩ | ⟨pre, s, post, hsplit, heq, hlt, hpre, hall⟩
      · refine Or.inr ⟨[], y, t, rfl, ?_, hy, by simp, ?_⟩
        · simpa [List.foldl_cons, hstep] using heq
        · intro x hx
          rcases List.mem_cons.mp hx with rfl | hx
          · exact le_refl _
          · exact hall x hx
      · refine Or.inr ⟨y :: pre, s, post, by simp [hsplit], ?_, hlt.trans hy, ?_, ?_⟩
        · simpa [List.foldl_cons, hstep] using heq
        · intro x hx
          rcases List.mem_cons.mp hx with rfl | hx
          · exact hlt
          · exact hpre x hx
        · intro x hx
          rcases List.mem_cons.mp hx with rfl | hx
          · exact hlt.le
          · exact hall x hx
    · push_neg at hy
      have hstep : nearestStep f (some m, (f m : WithTop ℝ)) y =
          (some m, (f m : WithTop ℝ)) := by
        simp [nearestStep, WithTop.coe_lt_coe, not_lt.mpr hy]
      rcases ih m with ⟨heq, hall⟩ | ⟨pre, s, post, hsplit, heq, hlt, hpre, hall⟩
      · refine Or.inl ⟨by simpa [List.foldl_cons, hstep] using heq, ?_⟩
        intro x hx
        rcases List.mem_cons.mp hx with rfl | hx
        · exact hy
        · exact hall x hx
      · refine Or.inr ⟨y :: pre, s, post, by simp [hsplit], ?_, hlt, ?_, ?_⟩
        · simpa [List.foldl_cons, hstep] using heq
        · intro x hx
          rcases List.mem_cons.mp hx with rfl | hx
          · exact hlt.trans_le hy
          · exact hpre x hx
        · intro x hx
          rcases List.mem_cons.mp hx with rfl | hx
          · exact (hlt.trans_le hy).le
          · exact hall x hx

end ValidateWaterFeatures

/-- **C4.** On a non-empty reference collection, `find_nearest_usgs_site`
returns some site together with its haversine distance to the target; that
distance is a minimum over the whole collection, and the returned site is the
first minimizer in the input's original order (every site strictly before it
in the list lies strictly farther away). -/
theorem claim_C4_nearest_site_min_first (lat lng : ℝ)
    (usgs_sites : List ValidateWaterFeatures.Site) (hne : usgs_sites ≠ []) :
    ∃ s pre post,
      ValidateWaterFeatures.find_nearest_usgs_site lat lng usgs_sites =
        (some s, (haversine_distance lat lng s.lat s.lng : WithTop ℝ)) ∧
      usgs_sites = pre ++ s :: post ∧
      (∀ x ∈ usgs_sites,
          haversine_distance lat lng s.lat s.lng ≤
            haversine_distance lat lng x.lat x.lng) ∧
      (∀ x ∈ pre,
          haversine_distance lat lng s.lat s.lng <
            haversine_distance lat lng x.lat x.lng) := by
  cases usgs_sites with
  | nil => exact absurd rfl hne
  | cons y t =>
    set f : ValidateWaterFeatures.Site → ℝ :=
      fun site => haversine_distance lat lng site.lat site.lng with hf
    have hstep0 : ValidateWaterFeatures.nearestStep f (none, ⊤) y =
        (some y, (f y : WithTop ℝ)) := by
      simp [ValidateWaterFeatures.nearestStep, WithTop.coe_lt_top]
    have hrw : ValidateWaterFeatures.find_nearest_usgs_site lat lng (y :: t) =
        t.foldl (ValidateWaterFeatures.nearestStep f) (some y, (f y : WithTop ℝ)) := by
      rw [ValidateWaterFeatures.find_nearest_usgs_site, List.foldl_cons, hstep0]
    rcases ValidateWaterFeatures.foldl_nearestStep_spec f t y with
      ⟨heq, hall⟩ | ⟨pre, s, post, hsplit, heq, hlt, hpre, hall⟩
    · refine ⟨y, [], t, ?_, rfl, ?_, by simp⟩
      · rw [hrw, heq]
      · intro x hx
        rcases List.mem_cons.mp hx with rfl | hx
        · exact le_refl _
        · exact hall x hx
    · refine ⟨s, y :: pre, post, ?_, by simp [hsplit], ?_, ?_⟩
      · rw [hrw, heq]
      · intro x hx
        rcases List.mem_cons.mp hx with rfl | hx
        · exact hlt.le
        · exact hall x hx
      · intro x hx
        rcases List.mem_cons.mp hx with rfl | hx
        · exact hlt
        · exact hpre x hx

theorem claim_C4_witness :
    ∃ s pre post,
      ValidateWaterFeatures.find_nearest_usgs_site 0 0
          [{ id := "01".toList, name := "A".toList, lat := 1, lng := 2 }] =
        (some s, (haversine_distance 0 0 s.lat s.lng : WithTop ℝ)) ∧
      [{ id := "01".toList, name := "A".toList, lat := 1, lng := 2 }] =
        pre ++ s :: post ∧
      (∀ x ∈ [({ id := "01".toList, name := "A".toList, lat := 1, lng := 2 } :
            ValidateWaterFeatures.Site)],
          haversine_distance 0 0 s.lat s.lng ≤ haversine_distance 0 0 x.lat x.lng) ∧
      (∀ x ∈ pre,
          haversine_distance 0 0 s.lat s.lng < haversine_distance 0 0 x.lat x.lng) :=
  claim_C4_nearest_site_min_first 0 0
    [{ id := "01".toList, name := "A".toList, lat := 1, lng := 2 }] (by simp)

/-! ### Claim C10: the nearby-site list is sorted by distance -/

/-- Every site produced by the RDB-parsing loop carries as `distance_m` its
haversine distance to the query point. -/
theorem parseSiteLine_distance (lat lng : ℝ) (line : List Char)
    (s : ValidateCoordinates.USGSSite)
    (h : ValidateCoordinates.parseSiteLine lat lng line = some s) :
    s.distance_m = haversine_distance lat lng s.lat s.lng := by
  simp only [ValidateCoordinates.parseSiteLine] at h
  repeat' split at h
  all_goals first
    | (injection h with h'
       subst h'
       rfl)
    | injection h

/-- **C10.** The list produced by `get_nearby_usgs_sites` is sorted in
nondecreasing order of `distance_m`; the `distance_m` field of every member is
its haversine distance to the query point; hence the first element of a
non-empty result is a site at minimum distance to the query point. -/
theorem claim_C10_sites_sorted_by_distance (lat lng : ℝ) (data : List Char) :
    List.Pairwise
        (fun a b : ValidateCoordinates.USGSSite => a.distance_m ≤ b.distance_m)
        (ValidateCoordinates.get_nearby_usgs_sites lat lng data) ∧
      (∀ s ∈ ValidateCoordinates.get_nearby_usgs_sites lat lng data,
          s.distance_m = haversine_distance lat lng s.lat s.lng) ∧
      (∀ hd tl, ValidateCoordinates.get_nearby_usgs_sites lat lng data = hd :: tl →
          ∀ x ∈ ValidateCoordinates.get_nearby_usgs_sites lat lng data,
            hd.distance_m ≤ x.distance_m) := by
  have hpair : List.Pairwise
      (fun a b : ValidateCoordinates.USGSSite => a.distance_m ≤ b.distance_m)
      (ValidateCoordinates.get_nearby_usgs_sites lat lng data) := by
    rw [ValidateCoordinates.get_nearby_usgs_sites]
    have htrans : ∀ a b c : ValidateCoordinates.USGSSite,
        decide (a.distance_m ≤ b.distance_m) = true →
        decide (b.distance_m ≤ c.distance_m) = true →
        decide (a.distance_m ≤ c.distance_m) = true := by
      intro a b c hab hbc
      simp only [decide_eq_true_eq] at *
      exact le_trans hab hbc
    have htotal : ∀ a b : ValidateCoordinates.USGSSite,
        (decide (a.distance_m ≤ b.distance_m) ||
          decide (b.distance_m ≤ a.distance_m)) = true := by
      intro a b
      simp only [Bool.or_eq_true, decide_eq_true_eq]
      exact le_total _ _
    have hs := List.sorted_mergeSort htrans htotal
      ((data.splitOn '\n').filterMap (ValidateCoordinates.parseSiteLine lat lng))
    exact hs.imp (fun h => of_decide_eq_true h)
  refine ⟨hpair, ?_, ?_⟩
  · intro s hs
    rw [ValidateCoordinates.get_nearby_usgs_sites, List.mem_mergeSort,
      List.mem_filterMap] at hs
    obtain ⟨line, hline, hparse⟩ := hs
    exact parseSiteLine_distance lat lng line s hparse
  · intro hd tl heq x hx
    rw [heq] at hpair hx
    rcases List.mem_cons.mp hx with rfl | hx
    · exact le_refl _
    · exact (List.pairwise_cons.mp hpair).1 x hx

/-- A sample USGS RDB response line (tab-separated, `USGS`-tagged). -/
def usgsSampleLine : List Char :=
  "USGS\t04206000\tCuyahoga River\tx\t41.2\t-81.6".toList

/-- The site parsed from `usgsSampleLine` for the query point `(0, 0)`. -/
noncomputable def usgsSampleSite : ValidateCoordinates.USGSSite :=
  ⟨"Cuyahoga River".toList, ((mkRat 206 5 : ℚ) : ℝ), ((-mkRat 408 5 : ℚ) : ℝ),
    haversine_distance 0 0 ((mkRat 206 5 : ℚ) : ℝ) ((-mkRat 408 5 : ℚ) : ℝ)⟩

theorem claim_C10_witness :
    usgsSampleSite.distance_m =
      haversine_distance 0 0 usgsSampleSite.lat usgsSampleSite.lng ∧
    usgsSampleSite.distance_m ≤ usgsSampleSite.distance_m := by
  have hlead : leadsWith "USGS".toList usgsSampleLine = true := by decide
  have hparts : usgsSampleLine.splitOn '\t' =
      ["USGS".toList, "04206000".toList, "Cuyahoga River".toList, "x".toList,
       "41.2".toList, "-81.6".toList] := by decide
  have hp4 : parseFloat ['4', '1', '.', '2'] = some (mkRat 206 5) := by decide
  have hp5 : parseFloat ['-', '8', '1', '.', '6'] = some (-mkRat 408 5) := by decide
  have hline : ValidateCoordinates.parseSiteLine 0 0 usgsSampleLine =
      some usgsSampleSite := by
    simp only [ValidateCoordinates.parseSiteLine, hlead, hparts, if_true]
    norm_num [usgsSampleSite, List.get?, hp4, hp5]
  have hsplit : usgsSampleLine.splitOn '\n' = [usgsSampleLine] := by decide
  have hout : ValidateCoordinates.get_nearby_usgs_sites 0 0 usgsSampleLine =
      [usgsSampleSite] := by
    rw [ValidateCoordinates.get_nearby_usgs_sites, hsplit, List.filterMap_cons, hline]
    simp
  constructor
  · exact (claim_C10_sites_sorted_by_distance 0 0 usgsSampleLine).2.1 usgsSampleSite
      (by rw [hout]; exact List.mem_singleton_self _)
  · exact (claim_C10_sites_sorted_by_distance 0 0 usgsSampleLine).2.2 usgsSampleSite []
      hout usgsSampleSite (by rw [hout]; exact List.mem_singleton_self _)

/-! ### Analytic lower bounds for the haversine distance -/

theorem arctan_lower (t : ℝ) (ht : 0 ≤ t) :
    t / Real.sqrt (1 + t ^ 2) ≤ Real.arctan t := by
  have h0 : 0 ≤ Real.arctan t := by
    rw [← Real.arctan_zero]
    exact Real.arctan_strictMono.monotone ht
  have hs : Real.sin (Real.arctan t) ≤ Real.arctan t := by
    rcases eq_or_lt_of_le h0 with h | h
    · rw [← h]; simp
    · exact (Real.sin_lt h).le
  rwa [Real.sin_arctan] at hs

/-- For `a ∈ [0, 1]` the central angle `c = 2 * atan2(sqrt a, sqrt (1-a))`
is at least `sqrt a`. -/
theorem atan2_sqrt_lower (a : ℝ) (h0 : 0 ≤ a) (h1 : a ≤ 1) :
    Real.sqrt a ≤ 2 * atan2 (Real.sqrt a) (Real.sqrt (1 - a)) := by
  rcases lt_or_eq_of_le h1 with hlt | heq
  · have hx : 0 < Real.sqrt (1 - a) := Real.sqrt_pos.mpr (by linarith)
    rw [atan2, if_pos hx]
    have hsa : 0 ≤ Real.sqrt a := Real.sqrt_nonneg a
    have hle1 : Real.sqrt (1 - a) ≤ 1 := by
      calc Real.sqrt (1 - a) ≤ Real.sqrt 1 := Real.sqrt_le_sqrt (by linarith)
        _ = 1 := Real.sqrt_one
    have hta : Real.sqrt a ≤ Real.sqrt a / Real.sqrt (1 - a) := by
      rw [le_div_iff hx]
      calc Real.sqrt a * Real.sqrt (1 - a) ≤ Real.sqrt a * 1 :=
            mul_le_mul_of_nonneg_left hle1 hsa
        _ = Real.sqrt a := mul_one _
    have harc1 : Real.arctan (Real.sqrt a) ≤
        Real.arctan (Real.sqrt a / Real.sqrt (1 - a)) :=
      Real.arctan_strictMono.monotone hta
    have harc2 : Real.sqrt a / Real.sqrt (1 + a) ≤ Real.arctan (Real.sqrt a) := by
      have h := arctan_lower (Real.sqrt a) hsa
      rwa [Real.sq_sqrt h0] at h
    have hpos : 0 < Real.sqrt (1 + a) := Real.sqrt_pos.mpr (by linarith)
    have hsq2 : Real.sqrt (1 + a) ≤ 2 := by
      calc Real.sqrt (1 + a) ≤ Real.sqrt 4 := Real.sqrt_le_sqrt (by linarith)
        _ = 2 := by
          rw [show (4 : ℝ) = 2 ^ 2 by norm_num,
            Real.sqrt_sq (by norm_num : (0 : ℝ) ≤ 2)]
    have hdiv : Real.sqrt a / 2 ≤ Real.sqrt a / Real.sqrt (1 + a) := by
      rw [div_le_div_iff (by norm_num) hpos]
      exact mul_le_mul_of_nonneg_left hsq2 hsa
    linarith
  · subst heq
    rw [show (1 : ℝ) - 1 = 0 by norm_num, Real.sqrt_zero, Real.sqrt_one]
    have hval : atan2 1 0 = Real.pi / 2 := by
      rw [atan2]; norm_num
    rw [hval]
    have := Real.pi_gt_three
    linarith

/-- The distance from a point to itself is zero. -/
theorem haversine_self (lat lng : ℝ) : haversine_distance lat lng lat lng = 0 := by
  have ha : haversine_a lat lng lat lng = 0 := by
    unfold haversine_a radians
    simp
  rw [haversine_distance, ha]
  rw [show (1 : ℝ) - 0 = 1 by norm_num, Real.sqrt_zero, Real.sqrt_one]
  have hval : atan2 0 1 = 0 := by
    rw [atan2]
    norm_num
  rw [hval]
  ring

/-- The Peninsula Dam reconciliation distance: the stored coordinate
`(41.30, -81.40)` lies more than 100 m from the authoritative
`(41.2425, -81.55)`. -/
theorem peninsula_distance_gt_100 :
    100 < haversine_distance 41.30 (-81.40) 41.2425 (-81.55) := by
  have hπ1 : 3.14 < Real.pi := Real.pi_gt_d2
  have hπ2 : Real.pi < 3.15 := Real.pi_lt_d2
  set u : ℝ := 0.0575 * (Real.pi / 180) / 2 with hu
  have hu_pos : 0 < u := by rw [hu]; positivity
  have hu_lt : u < 0.000504 := by rw [hu]; nlinarith
  have hu_gt : 0.000501 < u := by rw [hu]; nlinarith
  have hu_le1 : u ≤ 1 := by linarith
  have hsin : 0.0005 < Real.sin u := by
    have h := Real.sin_gt_sub_cube hu_pos hu_le1
    have h1 : u * u < 0.000504 * 0.000504 := by
      nlinarith [mul_lt_mul_of_pos_right hu_lt hu_pos,
        mul_lt_mul_of_pos_left hu_lt (show (0 : ℝ) < 0.000504 by norm_num)]
    have h3 : u ^ 3 < 0.000504 * (0.000504 * u) := by
      calc u ^ 3 = (u * u) * u := by ring
        _ < (0.000504 * 0.000504) * u := mul_lt_mul_of_pos_right h1 hu_pos
        _ = 0.000504 * (0.000504 * u) := by ring
    nlinarith
  have hsin_nonneg : 0 ≤ Real.sin u := by linarith
  set A : ℝ := haversine_a 41.30 (-81.40) 41.2425 (-81.55) with hA
  have hA_ge : Real.sin u ^ 2 ≤ A := by
    rw [hA]
    unfold haversine_a
    have h1 : radians (41.2425 - 41.30) / 2 = -u := by
      unfold radians
      rw [show (41.2425 - 41.30 : ℝ) = -0.0575 by norm_num, hu]
      ring
    rw [h1, Real.sin_neg, neg_sq]
    have hc1 : 0 ≤ Real.cos (radians 41.30) :=
      cos_radians_nonneg (by norm_num) (by norm_num)
    have hc2 : 0 ≤ Real.cos (radians 41.2425) :=
      cos_radians_nonneg (by norm_num) (by norm_num)
    have hterm : 0 ≤ Real.cos (radians 41.30) * Real.cos (radians 41.2425) *
        Real.sin (radians (-81.55 - -81.40) / 2) ^ 2 := by positivity
    linarith
  have hA0 : 0 ≤ A := by
    rw [hA]
    exact haversine_a_nonneg _ _ _ _ (by norm_num) (by norm_num) (by norm_num) (by norm_num)
  have hA1 : A ≤ 1 := by
    rw [hA]
    exact haversine_a_le_one _ _ _ _ (by norm_num) (by norm_num) (by norm_num) (by norm_num)
  have hsqrtA : Real.sin u ≤ Real.sqrt A := by
    have h := Real.sqrt_le_sqrt hA_ge
    rwa [Real.sqrt_sq hsin_nonneg] at h
  have hc := atan2_sqrt_lower A hA0 hA1
  rw [haversine_distance, ← hA]
  nlinarith

/-! ### Claim C6: the known-coordinate reconciler -/

/-- The issue emitted for Peninsula Dam stored at `(41.30, -81.40)`. -/
noncomputable def peninsulaIssue : CoordinateReport.CoordIssue :=
  { name := "Peninsula Dam".toList, current := (41.30, -81.40),
    suggested := (41.2425, -81.55),
    distance := haversine_distance 41.30 (-81.40) 41.2425 (-81.55),
    source := "Known/USGS".toList }

theorem peninsula_lookup :
    CoordinateReport.lookupTable CoordinateReport.KNOWN_COORDINATES
      "Peninsula Dam".toList = some (41.2425, -81.55) := by
  simp [CoordinateReport.lookupTable, CoordinateReport.KNOWN_COORDINATES]

theorem peninsula_check_eq :
    CoordinateReport.known_coordinate_check "Peninsula Dam".toList 41.30 (-81.40) =
      some peninsulaIssue := by
  rw [CoordinateReport.known_coordinate_check, peninsula_lookup]
  exact if_pos peninsula_distance_gt_100

/-- **C6.** For every destination with a stored coordinate, the
known-coordinate check emits an issue (whose suggestion carries the
authoritative coordinate) iff the name hits the table exactly
(case-sensitively) and the haversine distance between stored and authoritative
coordinates exceeds 100 m; an absent name contributes nothing.  In particular
`"Peninsula Dam"` stored at `(41.30, -81.40)` against authoritative
`(41.2425, -81.55)` yields an issue whose suggestion equals the authoritative
coordinate. -/
theorem claim_C6_known_coordinate_reconciler :
    (∀ (name : List Char) (lat lng : ℝ),
        (∃ i, CoordinateReport.known_coordinate_check name lat lng = some i) ↔
          (∃ k : ℝ × ℝ,
            CoordinateReport.lookupTable CoordinateReport.KNOWN_COORDINATES name =
                some k ∧
              100 < haversine_distance lat lng k.1 k.2)) ∧
    (∀ (name : List Char) (lat lng : ℝ) (i : CoordinateReport.CoordIssue),
        CoordinateReport.known_coordinate_check name lat lng = some i →
          CoordinateReport.lookupTable CoordinateReport.KNOWN_COORDINATES name =
              some i.suggested ∧
            i.distance = haversine_distance lat lng i.suggested.1 i.suggested.2 ∧
            100 < i.distance) ∧
    (∃ i, CoordinateReport.known_coordinate_check "Peninsula Dam".toList
          41.30 (-81.40) = some i ∧
        i.suggested = (41.2425, -81.55)) := by
  refine ⟨?_, ?_, ⟨peninsulaIssue, peninsula_check_eq, rfl⟩⟩
  · intro name lat lng
    rw [CoordinateReport.known_coordinate_check]
    cases hl : CoordinateReport.lookupTable CoordinateReport.KNOWN_COORDINATES name with
    | none => simp
    | some kv =>
      obtain ⟨kl, kn⟩ := kv
      by_cases hd : 100 < haversine_distance lat lng kl kn
      · simp [hd]
      · simp [hd]
  · intro name lat lng i h
    rw [CoordinateReport.known_coordinate_check] at h
    split at h
    next => exact absurd h (by simp)
    next kl kn heq =>
      split at h
      next hd =>
        injection h with h'
        subst h'
        exact ⟨heq, rfl, hd⟩
      next hd => exact absurd h (by simp)

theorem claim_C6_witness :
    CoordinateReport.lookupTable CoordinateReport.KNOWN_COORDINATES
        "Peninsula Dam".toList = some peninsulaIssue.suggested ∧
      peninsulaIssue.distance =
        haversine_distance 41.30 (-81.40) peninsulaIssue.suggested.1
          peninsulaIssue.suggested.2 ∧
      100 < peninsulaIssue.distance :=
  claim_C6_known_coordinate_reconciler.2.1 "Peninsula Dam".toList 41.30 (-81.40)
    peninsulaIssue peninsula_check_eq

/-! ### Claim C7: status is WARNING iff issues are non-empty -/

/-- The finalize step `status = 'WARNING' if issues else 'OK'`. -/
theorem statusString_spec (l : List ValidateCoordinates.Issue) :
    (((if l.isEmpty then "OK" else "WARNING") : String) = "WARNING" ↔ l ≠ []) ∧
      (((if l.isEmpty then "OK" else "WARNING") : String) = "OK" ↔ l = []) := by
  cases l with
  | nil => simp
  | cons a t => simp

theorem brandywine_lookup :
    CoordinateReport.lookupTable CoordinateReport.KNOWN_COORDINATES
      "Brandywine Falls".toList = some (41.2767, -81.5382) := by
  simp [CoordinateReport.lookupTable, CoordinateReport.KNOWN_COORDINATES]

/-- **C7.** For every destination whose coordinate fields are present,
non-empty and parse as floats, `validate_destination` succeeds and its status
is `WARNING` iff the collected issue sequence is non-empty, `OK` otherwise.
In particular the in-region, non-water-feature destination
`"Boston Store" (41.2, -81.6)` with a geocode naming Cuyahoga yields `OK`
with zero issues, and the known-coordinate check of a table entry matching
within 100 m (`"Brandywine Falls"` stored at its authoritative coordinate)
contributes no issue. -/
theorem claim_C7_warning_iff_issues :
    (∀ (dest : ValidateCoordinates.Destination) (usgs_data display_name : List Char)
        (ls lns : List Char) (qlat qlng : ℚ),
        dest.latitude = some ls → ls ≠ [] → parseFloat ls = some qlat →
        dest.longitude = some lns → lns ≠ [] → parseFloat lns = some qlng →
        ∃ r, ValidateCoordinates.validate_destination dest usgs_data display_name =
            .ok r ∧
          (r.status = "WARNING" ↔ r.issues ≠ []) ∧
          (r.status = "OK" ↔ r.issues = [])) ∧
    ValidateCoordinates.validate_destination
        ⟨"Boston Store".toList, some "41.2".toList, some "-81.6".toList⟩
        [] "Cuyahoga Valley National Park".toList =
      .ok ⟨"OK", [],
        [ValidateCoordinates.Suggestion.geocodedTo
          "Cuyahoga Valley National Park".toList]⟩ ∧
    CoordinateReport.known_coordinate_check "Brandywine Falls".toList
        41.2767 (-81.5382) = none := by
  refine ⟨?_, ?_, ?_⟩
  · intro dest usgs_data display_name ls lns qlat qlng hls hlne hpl hlns hlnse hpn
    have hlsE : ls.isEmpty = false := by
      cases ls with
      | nil => exact absurd rfl hlne
      | cons c cs => rfl
    have hlnsE : lns.isEmpty = false := by
      cases lns with
      | nil => exact absurd rfl hlnse
      | cons c cs => rfl
    rw [ValidateCoordinates.validate_destination, hls, hlns]
    simp only [ValidateCoordinates.getField, ValidateCoordinates.toFloatOpt,
      hlsE, hlnsE, hpl, hpn, Bind.bind, Except.bind, Bool.false_eq_true, if_false,
      Pure.pure, Except.pure]
    refine ⟨_, rfl, ?_, ?_⟩
    · exact (statusString_spec _).1
    · exact (statusString_spec _).2
  · have hp4 : parseFloat ['4', '1', '.', '2'] = some (mkRat 206 5) := by decide
    have hp5 : parseFloat ['-', '8', '1', '.', '6'] = some (-mkRat 408 5) := by decide
    have hwf : ValidateCoordinates.is_water_feature
        ['B', 'o', 's', 't', 'o', 'n', ' ', 'S', 't', 'o', 'r', 'e'] = false := by
      decide
    have hcuy : hasSub ['C', 'u', 'y', 'a', 'h', 'o', 'g', 'a']
        ['C', 'u', 'y', 'a', 'h', 'o', 'g', 'a', ' ', 'V', 'a', 'l', 'l', 'e', 'y',
         ' ', 'N', 'a', 't', 'i', 'o', 'n', 'a', 'l', ' ', 'P', 'a', 'r', 'k'] =
        true := by decide
    have hwb : ValidateCoordinates.is_within_bounds
        ((206 : ℝ) / 5) (-((408 : ℝ) / 5)) := by
      refine ⟨?_, ?_, ?_, ?_⟩ <;>
        norm_num [ValidateCoordinates.CVNP_BOUNDS]
    rw [ValidateCoordinates.validate_destination]
    simp only [ValidateCoordinates.getField, ValidateCoordinates.toFloatOpt,
      Bind.bind, Except.bind, Pure.pure, Except.pure]
    norm_num [hp4, hp5, hwf, hcuy, hwb, ValidateCoordinates.truncateDisplay]
  · rw [CoordinateReport.known_coordinate_check, brandywine_lookup]
    dsimp only
    rw [haversine_self 41.2767 (-81.5382)]
    exact if_neg (by norm_num)

theorem claim_C7_witness :
    ∃ r, ValidateCoordinates.validate_destination
        ⟨"Boston Store".toList, some "41.2".toList, some "-81.6".toList⟩
        [] "Cuyahoga Valley National Park".toList = .ok r ∧
      (r.status = "WARNING" ↔ r.issues ≠ []) ∧ (r.status = "OK" ↔ r.issues = []) :=
  claim_C7_warning_iff_issues.1
    ⟨"Boston Store".toList, some "41.2".toList, some "-81.6".toList⟩
    [] "Cuyahoga Valley National Park".toList
    "41.2".toList "-81.6".toList (mkRat 206 5) (-mkRat 408 5)
    rfl (by decide) (by decide) rfl (by decide) (by decide)

theorem claim_C2_witness :
    (ValidateWaterFeatures.is_water_feature "Brandywine Falls".toList = true ↔
      ∃ kw ∈ (["dam", "river", "lake", "pond", "marsh", "falls", "waterfall",
               "creek", "canal", "lock", "aqueduct", "reservoir",
               "gorge"].map String.toList),
        ∃ pre post, lowerStr "Brandywine Falls".toList = pre ++ kw ++ post) :=
  claim_C2_water_keywords_amended.1 "Brandywine Falls".toList

theorem claim_C5_witness :
    ValidateWaterFeatures.find_nearest_usgs_site 41.25 (-81.55) [] = (none, ⊤) :=
  claim_C5_empty_reference_set 41.25 (-81.55)

end Rotv
